import Mathlib

/-!
Shallow embedding of the market-making and delta-hedging engine in
src/algo.py.  Prices, deltas and credits are modelled as rationals,
volumes, positions and timestamps as integers.  The exchange collaborator
(order books, positions, trade histories, outstanding orders) is out of
scope per the spec; every snapshot the source pulls from it is an explicit
parameter of the embedded function.  Runtime failures of the Python code
(unbound locals, division by zero, explicit raises) are modelled with an
Except monad over the PyErr type below.
-/

namespace Algo

/-- Runtime failures of the source, plus the two distinguished error names
that the spec uses.  nameError models a Python NameError or
UnboundLocalError (reading a variable that no branch assigned); divByZero
models ZeroDivisionError; invalidInstrument models the explicit raise in
calculate_option_delta, which the spec calls InvalidInstrument;
insufficientData is the error name the spec assigns to the empty-history
case - nothing in the source produces it; indexError models indexing an
empty best-of-book list. -/
inductive PyErr where
  | nameError
  | divByZero
  | invalidInstrument
  | insufficientData
  | indexError
deriving DecidableEq

/-- One historical trade record (optibook TradeTick): price, volume,
aggressor side ("bid" or "ask") and timestamp.  Timestamps are modelled as
integers; the source compares datetime differences by absolute value. -/
structure TradeTick where
  price : ℚ
  volume : ℚ
  aggressor_side : String
  timestamp : ℤ
deriving DecidableEq

/-- optibook InstrumentType restricted to the kinds the source handles. -/
inductive InstrumentType where
  | stock
  | stockOption
  | stockFuture
deriving DecidableEq

/-- optibook OptionKind.  The source is dynamically typed, so a value that
is neither CALL nor PUT can reach the option functions; `other` stands for
any such value. -/
inductive OptionKind where
  | call
  | put
  | other
deriving DecidableEq

/-- Static instrument data used by get_quantified_data.  timeToExpiry
models calculate_current_time_to_date(expiry) (a helper from libs, outside
src); it is the only use the source makes of the expiry date. -/
structure Instr where
  instrument_type : InstrumentType
  timeToExpiry : ℚ
  strike : ℚ
  option_kind : OptionKind
deriving DecidableEq

/-- One best-of-book level (price, volume). -/
structure PriceVolume where
  price : ℚ
  volume : ℤ
deriving DecidableEq

/-- An order book snapshot: bid levels and ask levels, best first.  Either
side may legitimately be empty. -/
structure Book where
  bids : List PriceVolume
  asks : List PriceVolume
deriving DecidableEq

/-- An order sent to exchange.insert_order. -/
structure Order where
  instrument_id : String
  price : ℚ
  volume : ℤ
  side : String
  order_type : String
deriving DecidableEq

/-- One outstanding (resting) order as returned by
exchange.get_outstanding_orders. -/
structure OOrder where
  order_id : ℕ
  side : String
  price : ℚ
  volume : ℤ
deriving DecidableEq

/-- Python float-style division: raises ZeroDivisionError on a zero
divisor, otherwise exact division. -/
def pyDiv (a b : ℚ) : Except PyErr ℚ :=
  if b = 0 then .error .divByZero else .ok (a / b)

/-- Python % for a positive divisor: x % t = x - floor(x / t) * t, the
remainder with the sign of the divisor. -/
def py_mod (x t : ℚ) : ℚ :=
  x - ⌊x / t⌋ * t

/-- Python round to an integer: round-half-to-even (banker s rounding),
as used on float arguments by the builtin round. -/
def pyRound (x : ℚ) : ℤ :=
  if x - ⌊x⌋ < 1/2 then ⌊x⌋
  else if 1/2 < x - ⌊x⌋ then ⌊x⌋ + 1
  else if ⌊x⌋ % 2 = 0 then ⌊x⌋ else ⌊x⌋ + 1

/-- Source round_down_to_tick (algo.py lines 17-21):
floor(price / tick_size) * tick_size. -/
def round_down_to_tick (price tick_size : ℚ) : ℚ :=
  ⌊price / tick_size⌋ * tick_size

/-- Source round_up_to_tick (algo.py lines 24-28):
ceil(price / tick_size) * tick_size. -/
def round_up_to_tick (price tick_size : ℚ) : ℚ :=
  ⌈price / tick_size⌉ * tick_size

/-- A Black-Scholes pricing function S K T r sigma, injected for the
call_value / put_value / call_delta / put_delta imports from the
black_scholes module (outside src). -/
abbrev PriceFn := ℚ → ℚ → ℚ → ℚ → ℚ → ℚ

/-- Source calculate_theoretical_option_value (algo.py lines 47-65).
The if/elif chain has no else branch: for an option kind that is neither
CALL nor PUT no branch assigns option_value and the final return raises
an unbound-local NameError.  tte stands for
calculate_current_time_to_date(expiry). -/
def calculate_theoretical_option_value (cv pv : PriceFn) (tte strike : ℚ)
    (option_kind : OptionKind) (stock_value interest_rate volatility : ℚ) :
    Except PyErr ℚ :=
  match option_kind with
  | .call => .ok (cv stock_value strike tte interest_rate volatility)
  | .put => .ok (pv stock_value strike tte interest_rate volatility)
  | .other => .error .nameError

/-- Source calculate_option_delta (algo.py lines 68-88).  Unlike the value
function this one has an else branch that raises explicitly; the spec
calls that error InvalidInstrument. -/
def calculate_option_delta (cd pd : PriceFn) (tte strike : ℚ)
    (option_kind : OptionKind) (stock_value interest_rate volatility : ℚ) :
    Except PyErr ℚ :=
  match option_kind with
  | .call => .ok (cd stock_value strike tte interest_rate volatility)
  | .put => .ok (pd stock_value strike tte interest_rate volatility)
  | .other => .error .invalidInstrument

/-- The inner nearest-timestamp loop of get_quantified_data (algo.py
lines 308-319 and 344-355, two identical copies).  State: none while
first_loop is True, afterwards some (minimum, traded_price_underlying).
The comparison is minimum > abs(timestamp difference), but the update
branch assigns minimum = timestamp_instrument - line.timestamp without
abs, exactly as in the source (line 318 / 354).  Returns none when the
underlying history is empty, in which case traded_price_underlying stays
unbound in the source. -/
def nearest_underlying_price (timestamp_instrument : ℤ)
    (data_underlying : List TradeTick) : Option ℚ :=
  (data_underlying.foldl
    (fun st u =>
      match st with
      | none => some (|timestamp_instrument - u.timestamp|, u.price)
      | some (m, p) =>
        if |timestamp_instrument - u.timestamp| < m then
          some (timestamp_instrument - u.timestamp, u.price)
        else some (m, p))
    none).map (fun st => st.2)

/-- Nearest-neighbour match as the spec words it: the underlying trade
whose timestamp has the smallest absolute difference from the instrument
timestamp, ties broken in favour of the first-seen trade.  This is the
reading of the claim, kept separate so it can be compared with
nearest_underlying_price, the loop the source actually runs. -/
def nearest_underlying_price_spec (timestamp_instrument : ℤ)
    (data_underlying : List TradeTick) : Option ℚ :=
  (data_underlying.foldl
    (fun st u =>
      match st with
      | none => some (|timestamp_instrument - u.timestamp|, u.price)
      | some (m, p) =>
        if |timestamp_instrument - u.timestamp| < m then
          some (|timestamp_instrument - u.timestamp|, u.price)
        else some (m, p))
    none).map (fun st => st.2)

/-- Theoretical value of one instrument trade given the matched underlying
traded price (algo.py lines 321-334 and 357-369, two identical copies of
the same if/elif chain).  expfn x models pow(e, x), the continuous
compounding factor for futures. -/
def theo_value_for (cv pv : PriceFn) (expfn : ℚ → ℚ) (instrument : Instr)
    (traded_price_underlying : ℚ) : Except PyErr ℚ :=
  match instrument.instrument_type with
  | .stockOption =>
    calculate_theoretical_option_value cv pv instrument.timeToExpiry
      instrument.strike instrument.option_kind traded_price_underlying
      (3/100) 3
  | .stockFuture =>
    .ok (traded_price_underlying * expfn ((3/100) * instrument.timeToExpiry))
  | .stock => .ok traded_price_underlying

/-- The main loop of get_quantified_data (algo.py lines 302-371) over the
instrument tick history.  Accumulators: total ask volume, total bid
volume, aggregate squared deviation.  The source duplicates the body for
the two aggressor sides; the only difference is which volume counter is
increased, so the embedding shares the rest. -/
def gqd_loop (cv pv : PriceFn) (expfn : ℚ → ℚ) (instrument : Instr)
    (data_underlying : List TradeTick) :
    List TradeTick → ℚ → ℚ → ℚ → Except PyErr (ℚ × ℚ × ℚ)
  | [], total_ask, total_bid, agg => .ok (total_ask, total_bid, agg)
  | t :: rest, total_ask, total_bid, agg =>
    let total_ask := if t.aggressor_side = "bid" then total_ask else total_ask + t.volume
    let total_bid := if t.aggressor_side = "bid" then total_bid + t.volume else total_bid
    match nearest_underlying_price t.timestamp data_underlying with
    | none => .error .nameError
    | some traded_price_underlying =>
      match theo_value_for cv pv expfn instrument traded_price_underlying with
      | .error e => .error e
      | .ok theoretical_value =>
        gqd_loop cv pv expfn instrument data_underlying rest total_ask total_bid
          (agg + (theoretical_value - t.price)^2)

/-- Source get_quantified_data (algo.py lines 271-378).  The two tick
histories are parameters: the source fetches them from the exchange, in
the dual-listing case after substituting the liquid listing as underlying
and the DUAL instrument as the instrument (lines 281-296); the embedding
receives the resolved instrument and both histories.  Returns
(average_squared_deviation, average_volume_ask, average_volume_bid); the
three divisions by the history length run unguarded, exactly as in lines
374-376. -/
def get_quantified_data (cv pv : PriceFn) (expfn : ℚ → ℚ) (instrument : Instr)
    (data_instrument data_underlying : List TradeTick) :
    Except PyErr (ℚ × ℚ × ℚ) := do
  let (total_ask, total_bid, agg) ←
    gqd_loop cv pv expfn instrument data_underlying data_instrument 0 0 0
  let n : ℚ := data_instrument.length
  let average_squared_deviation ← pyDiv agg n
  let average_volume_ask ← pyDiv total_ask n
  let average_volume_bid ← pyDiv total_bid n
  .ok (average_squared_deviation, average_volume_ask, average_volume_bid)

/-- Per-side action decided by update_quotes: insert a fresh limit order,
amend the volume of the resting order, or leave the side alone (the
source prints Maintained in that case). -/
inductive QuoteAction where
  | insert (price : ℚ) (volume : ℤ)
  | amend (order_id : Option ℕ) (volume : ℤ)
  | maintain
deriving DecidableEq

/-- The externally visible plan produced by one update_quotes call:
order ids deleted in the pull loop, then the bid-side and ask-side
actions. -/
structure UQResult where
  deletions : List ℕ
  bidAction : QuoteAction
  askAction : QuoteAction
deriving DecidableEq

/-- Source update_quotes (algo.py lines 91-162) as a pure plan.  orders is
the exchange.get_outstanding_orders snapshot and position the
exchange.get_positions()[instrument_id] snapshot pulled inside the call
(line 123).  Deletions keep the source comparison semantics: comparing an
order id against a missing (None) outstanding id is simply false. -/
def update_quotes (orders : List OOrder) (theoretical_price credit : ℚ)
    (optimal_ask_volume optimal_bid_volume position_limit : ℤ)
    (tick_size : ℚ) (position : ℤ)
    (update_ask_price : Bool) (ask_order_id : Option ℕ)
    (update_bid_price : Bool) (bid_order_id : Option ℕ)
    (update_ask_volume update_bid_volume : Bool) : UQResult :=
  let deletions :=
    (orders.filter (fun o =>
      (update_ask_price && (some o.order_id == ask_order_id)) ||
      (update_bid_price && (some o.order_id == bid_order_id)))).map
      (fun o => o.order_id)
  let bid_price := round_down_to_tick (theoretical_price - credit) tick_size
  let ask_price := round_up_to_tick (theoretical_price + credit) tick_size
  let max_volume_to_buy := position_limit - position
  let max_volume_to_sell := position_limit + position
  let bid_volume := min optimal_bid_volume max_volume_to_buy
  let ask_volume := min optimal_ask_volume max_volume_to_sell
  let bidAction :=
    if 0 < bid_volume ∧ update_bid_price = true then
      QuoteAction.insert bid_price bid_volume
    else if 0 < bid_volume ∧ update_bid_price = false ∧ update_bid_volume = true then
      QuoteAction.amend bid_order_id bid_volume
    else QuoteAction.maintain
  let askAction :=
    if 0 < ask_volume ∧ update_ask_price = true then
      QuoteAction.insert ask_price ask_volume
    else if 0 < ask_volume ∧ update_ask_price = false ∧ update_ask_volume = true then
      QuoteAction.amend ask_order_id ask_volume
    else QuoteAction.maintain
  ⟨deletions, bidAction, askAction⟩

/-- The per-side flags and order ids operational_optimazation computes in
its second loop, with the initial values of algo.py lines 384-389. -/
structure Flags where
  update_ask_price : Bool
  update_bid_price : Bool
  update_ask_volume : Bool
  update_bid_volume : Bool
  ask_order_id : Option ℕ
  bid_order_id : Option ℕ
deriving DecidableEq

def flags0 : Flags := ⟨true, true, true, true, none, none⟩

/-- First loop of operational_optimazation (algo.py lines 391-395):
records the price of the resting ask and, in the else branch, of any
non-ask order as the resting bid price.  none models a name that the loop
never bound. -/
def oo_loop1_step (st : Option ℚ × Option ℚ) (o : OOrder) : Option ℚ × Option ℚ :=
  if o.side = "ask" then (some o.price, st.2) else (st.1, some o.price)

def oo_loop1 (outstanding_orders : List OOrder) : Option ℚ × Option ℚ :=
  outstanding_orders.foldl oo_loop1_step (none, none)

/-- One step of the second loop of operational_optimazation (algo.py
lines 406-420): two independent if blocks, one per side. -/
def oo_loop2_step (new_bid_price new_ask_price : ℚ)
    (optimal_ask_volume optimal_bid_volume : ℤ) (s : Flags) (o : OOrder) : Flags :=
  let s :=
    if o.side = "ask" then
      { s with
        ask_order_id := some o.order_id
        update_ask_price := if o.price = new_ask_price then false else s.update_ask_price
        update_ask_volume := if o.volume = optimal_ask_volume then false else s.update_ask_volume }
    else s
  if o.side = "bid" then
    { s with
      bid_order_id := some o.order_id
      update_bid_price := if o.price = new_bid_price then false else s.update_bid_price
      update_bid_volume := if o.volume = optimal_bid_volume then false else s.update_bid_volume }
  else s

def oo_loop2 (new_bid_price new_ask_price : ℚ)
    (optimal_ask_volume optimal_bid_volume : ℤ)
    (outstanding_orders : List OOrder) : Flags :=
  outstanding_orders.foldl
    (oo_loop2_step new_bid_price new_ask_price optimal_ask_volume optimal_bid_volume)
    flags0

/-- The eight values the callers of operational_optimazation consume
(arguments 0..7).  The source additionally returns the unmodified
positions snapshot as a ninth element, which no caller uses beyond these
eight. -/
structure OOResult where
  optimal_ask_volume : ℤ
  optimal_bid_volume : ℤ
  update_ask_price : Bool
  update_bid_price : Bool
  ask_order_id : Option ℕ
  bid_order_id : Option ℕ
  update_ask_volume : Bool
  update_bid_volume : Bool
deriving DecidableEq

/-- Source operational_optimazation (algo.py lines 380-431).  positions
is the exchange.get_positions() snapshot (line 397).  The self-trade
guard (lines 422-429) reads existing_bid_price or existing_ask_price,
names bound only by the first loop; reading an unbound one raises a
NameError, modelled by the error case. -/
def operational_optimazation (instrument_id : String)
    (outstanding_orders : List OOrder) (suggested_volume : ℤ)
    (new_bid_price new_ask_price : ℚ) (positions : String → ℤ) :
    Except PyErr OOResult :=
  let ep := oo_loop1 outstanding_orders
  let inventory := positions instrument_id
  let optimal_ask_volume :=
    if 0 < inventory then suggested_volume + inventory else suggested_volume
  let optimal_bid_volume :=
    if inventory < 0 then suggested_volume + |inventory| else suggested_volume
  let s := oo_loop2 new_bid_price new_ask_price optimal_ask_volume
    optimal_bid_volume outstanding_orders
  let mk := fun (s : Flags) =>
    OOResult.mk optimal_ask_volume optimal_bid_volume s.update_ask_price
      s.update_bid_price s.ask_order_id s.bid_order_id s.update_ask_volume
      s.update_bid_volume
  if s.update_ask_price = true ∧ s.update_bid_price = false then
    match ep.2 with
    | none => .error .nameError
    | some existing_bid_price =>
      .ok (mk (if new_ask_price = existing_bid_price then
        { s with update_ask_price := false } else s))
  else if s.update_bid_price = true ∧ s.update_ask_price = false then
    match ep.1 with
    | none => .error .nameError
    | some existing_ask_price =>
      .ok (mk (if new_bid_price = existing_ask_price then
        { s with update_bid_price := false } else s))
  else .ok (mk s)

/-- Static option data used by the hedge aggregation: instrument id plus
the Black-Scholes parameters read from the instrument object. -/
structure OptionInstr where
  id : String
  timeToExpiry : ℚ
  strike : ℚ
  option_kind : OptionKind
deriving DecidableEq

/-- Options leg of the NVDA branch of hedge_delta_position (algo.py lines
184-197).  fetch i is the exchange.get_positions() snapshot of loop
iteration i: the source refetches positions once per option.  The state
carries the accumulated delta and the latest bound positions snapshot
(none while the name positions is still unbound). -/
def options_delta_loop (cd pd : PriceFn) (fetch : ℕ → String → ℤ)
    (stock_value : ℚ) :
    List OptionInstr → ℕ → ℚ → Option (String → ℤ) →
    Except PyErr (ℚ × Option (String → ℤ))
  | [], _, acc, posv => .ok (acc, posv)
  | o :: rest, i, acc, _ =>
    let positions := fetch i
    match calculate_option_delta cd pd o.timeToExpiry o.strike o.option_kind
      stock_value (3/100) 3 with
    | .error e => .error e
    | .ok d =>
      options_delta_loop cd pd fetch stock_value rest (i + 1)
        (acc + d * (positions o.id : ℚ)) (some positions)

/-- Delta aggregation of the NVDA branch of hedge_delta_position (algo.py
lines 184-207): options leg, then futures, stock and dual-listed
positions, all three read from the positions name that only the options
loop binds - with an empty options mapping the first such read raises a
NameError. -/
def hedge_delta_aggregate_nvda (cd pd : PriceFn) (fetch : ℕ → String → ℤ)
    (options : List OptionInstr) (future_ids : List String)
    (stock_value : ℚ) : Except PyErr ℚ := do
  let (agg, posv) ← options_delta_loop cd pd fetch stock_value options 0 0 none
  match posv with
  | none => .error .nameError
  | some positions =>
    let agg := future_ids.foldl (fun a f => a + (positions f : ℚ)) agg
    let agg := agg + (positions "NVDA" : ℚ)
    let agg := agg + (positions "NVDA_DUAL" : ℚ)
    .ok agg

/-- The hedge decision tail shared by both branches of
hedge_delta_position (algo.py lines 214-224 for NVDA with threshold 35,
lines 242-252 for SAN with threshold 1), given a book whose sides the
spin-wait has already made non-empty.  Position limit 100 is the literal
in lines 214-215 / 242-243. -/
def hedge_delta_trade (stock_id : String) (threshold : ℚ)
    (aggregate_position_delta : ℚ) (stock_position : ℤ) (book : Book) :
    Except PyErr (Option Order) :=
  let max_volume_to_buy := 100 - stock_position
  let max_volume_to_sell := 100 + stock_position
  let bid_volume := min |pyRound aggregate_position_delta| max_volume_to_buy
  let ask_volume := min |pyRound aggregate_position_delta| max_volume_to_sell
  if threshold < aggregate_position_delta ∧ 0 < ask_volume then
    match book.bids.head? with
    | none => .error .indexError
    | some b => .ok (some ⟨stock_id, b.price, ask_volume, "ask", "ioc"⟩)
  else if aggregate_position_delta < -threshold ∧ 0 < bid_volume then
    match book.asks.head? with
    | none => .error .indexError
    | some a => .ok (some ⟨stock_id, a.price, bid_volume, "bid", "ioc"⟩)
  else .ok none

/-- The NVDA hedge decision with its literal threshold 35. -/
def hedge_delta_trade_nvda (delta : ℚ) (stock_position : ℤ) (book : Book) :
    Except PyErr (Option Order) :=
  hedge_delta_trade "NVDA" 35 delta stock_position book

/-- The SAN hedge decision with its literal threshold 1. -/
def hedge_delta_trade_san (delta : ℚ) (stock_position : ℤ) (book : Book) :
    Except PyErr (Option Order) :=
  hedge_delta_trade "SAN" 1 delta stock_position book

/-- Whether the spin-wait of hedge_delta_position stops on this book:
the source loops while bids == [] or asks == []. -/
def book_ready (b : Book) : Prop :=
  b.bids ≠ [] ∧ b.asks ≠ []

instance (b : Book) : Decidable (book_ready b) := by
  unfold book_ready
  infer_instance

/-- The while loop of algo.py lines 209-212 / 237-240: keep refetching the
book while a side is empty.  fetch i is the i-th
exchange.get_last_price_book result.  The source loop is unbounded; fuel
only bounds how far the embedding observes it, and none means the loop
was still spinning after fuel fetches. -/
def spin_wait (fetch : ℕ → Book) : ℕ → ℕ → Option Book
  | _, 0 => none
  | i, fuel + 1 =>
    let b := fetch i
    if b.bids = [] ∨ b.asks = [] then spin_wait fetch (i + 1) fuel else some b

/-- Spin-wait followed by the hedge decision, the tail of either branch of
hedge_delta_position (algo.py lines 209-224 / 237-252).  Returns none
while the spin-wait is still running after fuel fetches; otherwise the
decision made, in the same call, on the first ready book. -/
def hedge_delta_spin (stock_id : String) (threshold : ℚ) (fetch : ℕ → Book)
    (fuel : ℕ) (delta : ℚ) (stock_position : ℤ) :
    Option (Except PyErr (Option Order)) :=
  (spin_wait fetch 0 fuel).map
    (fun b => hedge_delta_trade stock_id threshold delta stock_position b)

/-- The credit line of run_market_making_strategy_for_options (algo.py
line 466, repeated at 548 and 626): s - (s % 0.1), where s stands for
sqrt(average_squared_deviation) and is therefore non-negative. -/
def optimal_credit (s : ℚ) : ℚ :=
  s - py_mod s (1/10)

/-- A concrete Black-Scholes stand-in used only in closed evaluation
theorems; the pipeline under test never calls it on the inputs chosen. -/
def pf0 : PriceFn := fun _ _ _ _ _ => 0

/-- A concrete compounding stand-in for closed evaluation theorems. -/
def expfn0 : ℚ → ℚ := fun _ => 1

/-- A stock-typed instrument: its theoretical value is the matched
underlying traded price, so evaluation does not depend on pf0/expfn0. -/
def stock_instr : Instr := ⟨.stock, 0, 0, .call⟩

/-- One instrument trade: price 3, volume 1, bid aggressor, timestamp 10. -/
def tick_i : TradeTick := ⟨3, 1, "bid", 10⟩

/-- Underlying history for the nearest-match evaluation: trades at
timestamps 20, 11, 10 with prices 1, 2, 3.  Relative to instrument
timestamp 10 the closest trade is the third (distance 0, price 3). -/
def unders_ex : List TradeTick :=
  [⟨1, 1, "ask", 20⟩, ⟨2, 1, "ask", 11⟩, ⟨3, 1, "ask", 10⟩]

/-- Claim C1.  The claim says the underlying trade matched to each
instrument trade is the one with the smallest absolute timestamp
difference (ties first-seen).  The source update branch stores the signed
difference as the new minimum (algo.py line 318/354, missing abs), so a
nearer later-timestamped trade poisons the minimum: with instrument
timestamp 10 and underlying trades at timestamps 20, 11, 10 the loop
keeps the timestamp-11 trade (price 2, minimum set to -1) and never takes
the exact timestamp-10 trade (price 3), and the accumulated squared
deviation for instrument trade price 3 is 1 instead of 0. -/
theorem claim_C1_failing_input :
    nearest_underlying_price 10 unders_ex = some 2 ∧
    nearest_underlying_price_spec 10 unders_ex = some 3 ∧
    get_quantified_data pf0 pf0 expfn0 stock_instr [tick_i] unders_ex =
      .ok (1, 0, 1) := by
  refine ⟨rfl, rfl, ?_⟩
  show gqd_loop pf0 pf0 expfn0 stock_instr unders_ex [tick_i] 0 0 0 >>= _ = _
  norm_num [gqd_loop, nearest_underlying_price, unders_ex, tick_i, stock_instr,
    theo_value_for, pyDiv, Bind.bind, Except.bind]

/-- Claim C4 (amended).  With an empty instrument tick history
get_quantified_data reaches the division by the history length and fails
with a ZeroDivisionError, for every pricing function, instrument and
underlying history. -/
theorem claim_C4_amended (cv pv : PriceFn) (expfn : ℚ → ℚ)
    (instrument : Instr) (data_underlying : List TradeTick) :
    get_quantified_data cv pv expfn instrument [] data_underlying =
      .error .divByZero := rfl

/-- Claim C4 (counterexample).  At the concrete empty-history input the
function fails with divByZero, which is not the distinguished
insufficientData error the claim requires. -/
theorem claim_C4_counterexample :
    get_quantified_data pf0 pf0 expfn0 stock_instr [] [] = .error .divByZero ∧
    (Except.error PyErr.divByZero : Except PyErr (ℚ × ℚ × ℚ)) ≠
      .error .insufficientData := by
  refine ⟨rfl, ?_⟩
  simp

/-- Claim C5 (amended).  For an option kind that is neither CALL nor PUT,
calculate_option_delta fails with the distinguished invalidInstrument
error (its explicit raise), but calculate_theoretical_option_value, which
has no else branch, fails with an unbound-local nameError instead; for
CALL and PUT both return the corresponding Black-Scholes result without
error. -/
theorem claim_C5_amended (cv pv cd pd : PriceFn) (tte strike S r sigma : ℚ) :
    calculate_theoretical_option_value cv pv tte strike .other S r sigma =
      .error .nameError ∧
    calculate_option_delta cd pd tte strike .other S r sigma =
      .error .invalidInstrument ∧
    calculate_theoretical_option_value cv pv tte strike .call S r sigma =
      .ok (cv S strike tte r sigma) ∧
    calculate_theoretical_option_value cv pv tte strike .put S r sigma =
      .ok (pv S strike tte r sigma) ∧
    calculate_option_delta cd pd tte strike .call S r sigma =
      .ok (cd S strike tte r sigma) ∧
    calculate_option_delta cd pd tte strike .put S r sigma =
      .ok (pd S strike tte r sigma) :=
  ⟨rfl, rfl, rfl, rfl, rfl, rfl⟩

/-- Claim C5 (counterexample).  At a concrete unsupported option kind the
value function fails with nameError, not with the distinguished
invalidInstrument error the claim requires of both functions. -/
theorem claim_C5_counterexample :
    calculate_theoretical_option_value pf0 pf0 1 100 .other 50 (3/100) 3 =
      .error .nameError ∧
    (Except.error PyErr.nameError : Except PyErr ℚ) ≠
      .error .invalidInstrument := by
  refine ⟨rfl, ?_⟩
  simp

/-- Claim C8.  For every non-negative s standing for the root mean squared
deviation, the credit s - (s % 0.1) equals round_down_to_tick s 0.1, is a
multiple of the tick, does not exceed s, and dominates every tick
multiple that does not exceed s: it is the largest tick multiple below or
at s, a truncation rather than a rounding. -/
theorem claim_C8_credit_floor (s : ℚ) (_h : 0 ≤ s) :
    optimal_credit s = round_down_to_tick s (1/10) ∧
    optimal_credit s ≤ s ∧
    (∃ k : ℤ, optimal_credit s = (k : ℚ) * (1/10)) ∧
    ∀ k : ℤ, (k : ℚ) * (1/10) ≤ s → (k : ℚ) * (1/10) ≤ optimal_credit s := by
  have ht : (0 : ℚ) < 1/10 := by norm_num
  have h1 : optimal_credit s = (⌊s / (1/10)⌋ : ℚ) * (1/10) := by
    unfold optimal_credit py_mod
    ring
  refine ⟨?_, ?_, ⟨⌊s / (1/10)⌋, h1⟩, ?_⟩
  · rw [h1]
    unfold round_down_to_tick
    rfl
  · rw [h1]
    have hf : ((⌊s / (1/10)⌋ : ℚ)) ≤ s / (1/10) := Int.floor_le _
    calc (⌊s / (1/10)⌋ : ℚ) * (1/10) ≤ (s / (1/10)) * (1/10) :=
          mul_le_mul_of_nonneg_right hf (le_of_lt ht)
      _ = s := by field_simp
  · intro k hk
    rw [h1]
    have hk2 : (k : ℚ) ≤ s / (1/10) := (le_div_iff₀ ht).mpr hk
    have hk3 : k ≤ ⌊s / (1/10)⌋ := Int.le_floor.mpr hk2
    exact mul_le_mul_of_nonneg_right (by exact_mod_cast hk3) (le_of_lt ht)

/-- Claim C8 witness: the spec example credit 0.35 truncated to 0.3. -/
theorem claim_C8_credit_floor_witness :
    optimal_credit (7/20) = round_down_to_tick (7/20) (1/10) ∧
    optimal_credit (7/20) ≤ 7/20 ∧
    (∃ k : ℤ, optimal_credit (7/20) = (k : ℚ) * (1/10)) ∧
    ∀ k : ℤ, (k : ℚ) * (1/10) ≤ 7/20 → (k : ℚ) * (1/10) ≤ optimal_credit (7/20) :=
  claim_C8_credit_floor (7/20) (by norm_num)

lemma not_book_ready_iff (b : Book) :
    ¬ book_ready b ↔ (b.bids = [] ∨ b.asks = []) := by
  unfold book_ready
  tauto

lemma spin_wait_of_all_bad (fetch : ℕ → Book) :
    ∀ (fuel i : ℕ), (∀ j, j < fuel → ¬ book_ready (fetch (i + j))) →
      spin_wait fetch i fuel = none := by
  intro fuel
  induction fuel with
  | zero => intro i _; rfl
  | succ n ih =>
    intro i h
    have h0 : ¬ book_ready (fetch i) := by
      simpa using h 0 (Nat.succ_pos n)
    have hb : (fetch i).bids = [] ∨ (fetch i).asks = [] :=
      (not_book_ready_iff _).mp h0
    simp only [spin_wait]
    rw [if_pos hb]
    refine ih (i + 1) (fun j hj => ?_)
    have := h (j + 1) (by omega)
    simpa [show i + 1 + j = i + (j + 1) by omega] using this

lemma spin_wait_finds (fetch : ℕ → Book) :
    ∀ (fuel i k : ℕ), k < fuel →
      (∀ j, j < k → ¬ book_ready (fetch (i + j))) →
      book_ready (fetch (i + k)) →
      spin_wait fetch i fuel = some (fetch (i + k)) := by
  intro fuel
  induction fuel with
  | zero => intro i k hk; omega
  | succ n ih =>
    intro i k hk hbad hgood
    cases k with
    | zero =>
      have hready : book_ready (fetch i) := by simpa using hgood
      have hb : ¬((fetch i).bids = [] ∨ (fetch i).asks = []) := by
        intro hc
        exact (not_book_ready_iff _).mpr hc hready
      simp only [spin_wait]
      rw [if_neg hb]
      simp
    | succ m =>
      have h0 : ¬ book_ready (fetch i) := by simpa using hbad 0 (by omega)
      have hb : (fetch i).bids = [] ∨ (fetch i).asks = [] :=
        (not_book_ready_iff _).mp h0
      simp only [spin_wait]
      rw [if_pos hb]
      have heq : i + 1 + m = i + (m + 1) := by omega
      have := ih (i + 1) m (by omega)
        (fun j hj => by
          have := hbad (j + 1) (by omega)
          simpa [show i + 1 + j = i + (j + 1) by omega] using this)
        (by simpa [heq] using hgood)
      simpa [heq] using this

/-- Claim C2 (amended).  On an empty bid or ask side hedge_delta_position
does not defer to the next cycle: it busy-waits, refetching the book
inside the same call.  While every observed fetch is not ready the call
is still spinning and no hedge decision has been made (none); as soon as
some fetch k is the first ready book, the hedge decision is made on that
book in the same call. -/
theorem claim_C2_amended (stock_id : String) (threshold : ℚ)
    (fetch : ℕ → Book) (fuel : ℕ) (delta : ℚ) (stock_position : ℤ) :
    ((∀ j, j < fuel → ¬ book_ready (fetch j)) →
      hedge_delta_spin stock_id threshold fetch fuel delta stock_position = none) ∧
    ∀ k, k < fuel → (∀ j, j < k → ¬ book_ready (fetch j)) →
      book_ready (fetch k) →
      hedge_delta_spin stock_id threshold fetch fuel delta stock_position =
        some (hedge_delta_trade stock_id threshold delta stock_position (fetch k)) := by
  constructor
  · intro h
    unfold hedge_delta_spin
    rw [spin_wait_of_all_bad fetch fuel 0 (fun j hj => by simpa using h j hj)]
    rfl
  · intro k hk hbad hgood
    unfold hedge_delta_spin
    rw [spin_wait_finds fetch fuel 0 k hk
      (fun j hj => by simpa using hbad j hj) (by simpa using hgood)]
    simp

/-- Book with an empty bid side, as fetched first in the counterexample. -/
def book_empty_bid : Book := ⟨[], [⟨101, 40⟩]⟩

/-- Book with both sides present, fetched on every retry. -/
def book_good : Book := ⟨[⟨100, 50⟩], [⟨101, 40⟩]⟩

/-- Fetch sequence whose first snapshot has an empty bid side. -/
def fetch_books_ex : ℕ → Book :=
  fun i => if i = 0 then book_empty_bid else book_good

/-- Claim C2 (counterexample).  A cycle in which the first book fetch has
an empty bid side: the claim says the hedge decision is deferred and no
order is placed that cycle, but the source refetches within the same call
and, with aggregate delta 40 and position 0, inserts the IOC sell order
in that very cycle. -/
theorem claim_C2_counterexample :
    (fetch_books_ex 0).bids = [] ∧
    hedge_delta_spin "NVDA" 35 fetch_books_ex 2 40 0 =
      some (.ok (some ⟨"NVDA", 100, 40, "ask", "ioc"⟩)) := by
  constructor
  · rfl
  · norm_num [hedge_delta_spin, spin_wait, fetch_books_ex, book_empty_bid,
      book_good, hedge_delta_trade, pyRound]

/-- Claim C2 witness: the amended theorem applied to a permanently empty
book (still spinning, no decision) and to the two-fetch sequence (decision
made on the first ready book in the same call). -/
theorem claim_C2_amended_witness :
    hedge_delta_spin "SAN" 1 (fun _ => book_empty_bid) 3 5 0 = none ∧
    hedge_delta_spin "NVDA" 35 fetch_books_ex 2 40 0 =
      some (hedge_delta_trade "NVDA" 35 40 0 (fetch_books_ex 1)) := by
  constructor
  · exact (claim_C2_amended "SAN" 1 (fun _ => book_empty_bid) 3 5 0).1
      (fun j _ => by decide)
  · exact (claim_C2_amended "NVDA" 35 fetch_books_ex 2 40 0).2 1 (by omega)
      (fun j hj => by
        have : j = 0 := by omega
        subst this
        decide)
      (by decide)

lemma pyRound_ge_floor (x : ℚ) : ⌊x⌋ ≤ pyRound x := by
  unfold pyRound
  split_ifs <;> omega

lemma pyRound_le_floor_add_one (x : ℚ) : pyRound x ≤ ⌊x⌋ + 1 := by
  unfold pyRound
  split_ifs <;> omega

/-- Banker s rounding is an odd function, so the source expression
abs(round(delta)) agrees with the claim expression round(abs(delta)). -/
lemma pyRound_neg (x : ℚ) : pyRound (-x) = -pyRound x := by
  by_cases h0 : Int.fract x = 0
  · obtain ⟨n, rfl⟩ : ∃ n : ℤ, x = (n : ℚ) := by
      refine ⟨⌊x⌋, ?_⟩
      have := Int.floor_add_fract x
      rw [h0] at this
      linarith
    unfold pyRound
    have h1 : ⌊-(n : ℚ)⌋ = -n := by
      rw [show (-(n : ℚ)) = ((-n : ℤ) : ℚ) by push_cast; ring, Int.floor_intCast]
    rw [h1, Int.floor_intCast]
    push_cast
    norm_num
  · have hfr : Int.fract (-x) = 1 - Int.fract x := Int.fract_neg h0
    have hfl : ⌊-x⌋ = -⌊x⌋ - 1 := by
      have h1 : ((⌊-x⌋ : ℤ) : ℚ) = -x - Int.fract (-x) := by
        have := Int.floor_add_fract (-x)
        linarith
      have h2 : ((⌊x⌋ : ℤ) : ℚ) = x - Int.fract x := by
        have := Int.floor_add_fract x
        linarith
      rw [hfr] at h1
      have : ((⌊-x⌋ : ℤ) : ℚ) = ((-⌊x⌋ - 1 : ℤ) : ℚ) := by
        push_cast
        rw [h1]
        rw [show -((⌊x⌋ : ℤ) : ℚ) = -(x - Int.fract x) by rw [h2]]
        ring
      exact_mod_cast this
    have hr0 : 0 < Int.fract x := lt_of_le_of_ne (Int.fract_nonneg x) (Ne.symm h0)
    have hr1 : Int.fract x < 1 := Int.fract_lt_one x
    unfold pyRound
    rw [hfl]
    have e1 : -x - ((-⌊x⌋ - 1 : ℤ) : ℚ) = 1 - Int.fract x := by
      push_cast
      have h2 : ((⌊x⌋ : ℤ) : ℚ) = x - Int.fract x := by
        have := Int.floor_add_fract x
        linarith
      rw [h2]
      ring
    have e2 : x - ((⌊x⌋ : ℤ) : ℚ) = Int.fract x := Int.self_sub_floor x
    rw [e1, e2]
    split_ifs <;> first | omega | (exfalso; linarith)

lemma hedge_trade_sell (stock_id : String) (threshold : ℚ) (hθ : 1 ≤ threshold)
    (delta : ℚ) (pos : ℤ) (book : Book) (b0 : PriceVolume)
    (hb : book.bids.head? = some b0) (hδ : threshold < delta)
    (hcap : 0 < 100 + pos) :
    hedge_delta_trade stock_id threshold delta pos book =
      .ok (some ⟨stock_id, b0.price, min (pyRound |delta|) (100 + pos), "ask", "ioc"⟩) := by
  have hδ1 : (1 : ℚ) < delta := lt_of_le_of_lt hθ hδ
  have hfl : 1 ≤ ⌊delta⌋ := Int.le_floor.mpr (by exact_mod_cast le_of_lt hδ1)
  have hround : 1 ≤ pyRound delta := le_trans hfl (pyRound_ge_floor delta)
  have habs : |pyRound delta| = pyRound delta := abs_of_pos (by omega)
  have habs2 : |delta| = delta := abs_of_pos (by linarith)
  have hcond : threshold < delta ∧ 0 < min |pyRound delta| (100 + pos) := by
    refine ⟨hδ, ?_⟩
    rw [habs]
    exact lt_min (by omega) hcap
  unfold hedge_delta_trade
  rw [if_pos hcond, hb, habs2, habs]

lemma hedge_trade_buy (stock_id : String) (threshold : ℚ) (hθ : 1 ≤ threshold)
    (delta : ℚ) (pos : ℤ) (book : Book) (a0 : PriceVolume)
    (ha : book.asks.head? = some a0) (hδ : delta < -threshold)
    (hcap : 0 < 100 - pos) :
    hedge_delta_trade stock_id threshold delta pos book =
      .ok (some ⟨stock_id, a0.price, min (pyRound |delta|) (100 - pos), "bid", "ioc"⟩) := by
  have hδ1 : delta < -1 := lt_of_lt_of_le hδ (by linarith)
  have hfl : ⌊delta⌋ ≤ -2 := by
    have h2 : (⌊delta⌋ : ℚ) < -1 := lt_of_le_of_lt (Int.floor_le delta) hδ1
    have : ⌊delta⌋ < -1 := by exact_mod_cast h2
    omega
  have hround : pyRound delta ≤ -1 := le_trans (pyRound_le_floor_add_one delta) (by omega)
  have habs : |pyRound delta| = -pyRound delta := abs_of_neg (by omega)
  have habs2 : |delta| = -delta := abs_of_neg (by linarith)
  have hnotsell : ¬(threshold < delta ∧ 0 < min |pyRound delta| (100 + pos)) := by
    rintro ⟨hc, -⟩
    linarith
  have hcond : delta < -threshold ∧ 0 < min |pyRound delta| (100 - pos) := by
    refine ⟨hδ, ?_⟩
    rw [habs]
    exact lt_min (by omega) hcap
  unfold hedge_delta_trade
  rw [if_neg hnotsell, if_pos hcond, ha, habs2, pyRound_neg, habs]

lemma hedge_trade_none (stock_id : String) (threshold delta : ℚ) (pos : ℤ)
    (book : Book) (h1 : -threshold ≤ delta) (h2 : delta ≤ threshold) :
    hedge_delta_trade stock_id threshold delta pos book = .ok none := by
  have hnotsell : ¬(threshold < delta ∧ 0 < min |pyRound delta| (100 + pos)) := by
    rintro ⟨hc, -⟩
    linarith
  have hnotbuy : ¬(delta < -threshold ∧ 0 < min |pyRound delta| (100 - pos)) := by
    rintro ⟨hc, -⟩
    linarith
  unfold hedge_delta_trade
  rw [if_neg hnotsell, if_neg hnotbuy]

/-- Claim C3.  With both best-of-book levels present: aggregate delta
above the threshold (35 for NVDA, 1 for SAN) and positive selling
capacity produce exactly one IOC sell at the best bid with volume
min(round(abs(delta)), 100 + stock_position); delta below the negative
threshold and positive buying capacity produce one IOC buy at the best
ask with volume min(round(abs(delta)), 100 - stock_position); delta
inside [-threshold, threshold] produces no hedge order. -/
theorem claim_C3_hedge_orders (delta : ℚ) (stock_position : ℤ) (book : Book)
    (b0 a0 : PriceVolume) (hb : book.bids.head? = some b0)
    (ha : book.asks.head? = some a0) :
    ((35 < delta → 0 < 100 + stock_position →
        hedge_delta_trade_nvda delta stock_position book =
          .ok (some ⟨"NVDA", b0.price,
            min (pyRound |delta|) (100 + stock_position), "ask", "ioc"⟩)) ∧
      (delta < -35 → 0 < 100 - stock_position →
        hedge_delta_trade_nvda delta stock_position book =
          .ok (some ⟨"NVDA", a0.price,
            min (pyRound |delta|) (100 - stock_position), "bid", "ioc"⟩)) ∧
      (-35 ≤ delta → delta ≤ 35 →
        hedge_delta_trade_nvda delta stock_position book = .ok none)) ∧
    ((1 < delta → 0 < 100 + stock_position →
        hedge_delta_trade_san delta stock_position book =
          .ok (some ⟨"SAN", b0.price,
            min (pyRound |delta|) (100 + stock_position), "ask", "ioc"⟩)) ∧
      (delta < -1 → 0 < 100 - stock_position →
        hedge_delta_trade_san delta stock_position book =
          .ok (some ⟨"SAN", a0.price,
            min (pyRound |delta|) (100 - stock_position), "bid", "ioc"⟩)) ∧
      (-1 ≤ delta → delta ≤ 1 →
        hedge_delta_trade_san delta stock_position book = .ok none)) := by
  refine ⟨⟨?_, ?_, ?_⟩, ⟨?_, ?_, ?_⟩⟩
  · exact fun hδ hcap =>
      hedge_trade_sell "NVDA" 35 (by norm_num) delta stock_position book b0 hb hδ hcap
  · exact fun hδ hcap =>
      hedge_trade_buy "NVDA" 35 (by norm_num) delta stock_position book a0 ha hδ hcap
  · exact fun h1 h2 => hedge_trade_none "NVDA" 35 delta stock_position book h1 h2
  · exact fun hδ hcap =>
      hedge_trade_sell "SAN" 1 (by norm_num) delta stock_position book b0 hb hδ hcap
  · exact fun hδ hcap =>
      hedge_trade_buy "SAN" 1 (by norm_num) delta stock_position book a0 ha hδ hcap
  · exact fun h1 h2 => hedge_trade_none "SAN" 1 delta stock_position book h1 h2

/-- Claim C3 witness: delta 40 against threshold 35 sells 40 lots IOC at
the best bid; delta 10 is inside the band and yields no action; delta -5
against the SAN threshold 1 buys min(5, 100) lots IOC at the best ask. -/
theorem claim_C3_hedge_orders_witness :
    hedge_delta_trade_nvda 40 0 book_good =
      .ok (some ⟨"NVDA", (100 : ℚ), min (pyRound |(40 : ℚ)|) (100 + (0 : ℤ)), "ask", "ioc"⟩) ∧
    hedge_delta_trade_nvda 10 0 book_good = .ok none ∧
    hedge_delta_trade_san (-5) 0 book_good =
      .ok (some ⟨"SAN", (101 : ℚ), min (pyRound |(-5 : ℚ)|) (100 - (0 : ℤ)), "bid", "ioc"⟩) := by
  refine ⟨?_, ?_, ?_⟩
  · exact (claim_C3_hedge_orders 40 0 book_good ⟨100, 50⟩ ⟨101, 40⟩ rfl rfl).1.1
      (by norm_num) (by norm_num)
  · exact (claim_C3_hedge_orders 10 0 book_good ⟨100, 50⟩ ⟨101, 40⟩ rfl rfl).1.2.2
      (by norm_num) (by norm_num)
  · exact (claim_C3_hedge_orders (-5) 0 book_good ⟨100, 50⟩ ⟨101, 40⟩ rfl rfl).2.2.1
      (by norm_num) (by norm_num)

/-- Claim C6.  In every update_quotes call, an inserted or amended bid
volume never exceeds position_limit - position and an inserted or amended
ask volume never exceeds position_limit + position; when the capped
volume of a side is non-positive, that side is left untouched
(maintained) this cycle. -/
theorem claim_C6_volume_caps (orders : List OOrder)
    (theoretical_price credit : ℚ)
    (optimal_ask_volume optimal_bid_volume position_limit : ℤ)
    (tick_size : ℚ) (position : ℤ)
    (update_ask_price : Bool) (ask_order_id : Option ℕ)
    (update_bid_price : Bool) (bid_order_id : Option ℕ)
    (update_ask_volume update_bid_volume : Bool) :
    (∀ p v, (update_quotes orders theoretical_price credit optimal_ask_volume
        optimal_bid_volume position_limit tick_size position update_ask_price
        ask_order_id update_bid_price bid_order_id update_ask_volume
        update_bid_volume).bidAction = QuoteAction.insert p v →
      v ≤ position_limit - position) ∧
    (∀ oid v, (update_quotes orders theoretical_price credit optimal_ask_volume
        optimal_bid_volume position_limit tick_size position update_ask_price
        ask_order_id update_bid_price bid_order_id update_ask_volume
        update_bid_volume).bidAction = QuoteAction.amend oid v →
      v ≤ position_limit - position) ∧
    (min optimal_bid_volume (position_limit - position) ≤ 0 →
      (update_quotes orders theoretical_price credit optimal_ask_volume
        optimal_bid_volume position_limit tick_size position update_ask_price
        ask_order_id update_bid_price bid_order_id update_ask_volume
        update_bid_volume).bidAction = QuoteAction.maintain) ∧
    (∀ p v, (update_quotes orders theoretical_price credit optimal_ask_volume
        optimal_bid_volume position_limit tick_size position update_ask_price
        ask_order_id update_bid_price bid_order_id update_ask_volume
        update_bid_volume).askAction = QuoteAction.insert p v →
      v ≤ position_limit + position) ∧
    (∀ oid v, (update_quotes orders theoretical_price credit optimal_ask_volume
        optimal_bid_volume position_limit tick_size position update_ask_price
        ask_order_id update_bid_price bid_order_id update_ask_volume
        update_bid_volume).askAction = QuoteAction.amend oid v →
      v ≤ position_limit + position) ∧
    (min optimal_ask_volume (position_limit + position) ≤ 0 →
      (update_quotes orders theoretical_price credit optimal_ask_volume
        optimal_bid_volume position_limit tick_size position update_ask_price
        ask_order_id update_bid_price bid_order_id update_ask_volume
        update_bid_volume).askAction = QuoteAction.maintain) := by
  unfold update_quotes
  dsimp only
  refine ⟨?_, ?_, ?_, ?_, ?_, ?_⟩
  · intro p v hv
    split_ifs at hv with h1 h2
    all_goals
      first
        | (injection hv with h3 h4
           rw [← h4]
           exact min_le_right _ _)
        | cases hv
  · intro oid v hv
    split_ifs at hv with h1 h2
    all_goals
      first
        | (injection hv with h3 h4
           rw [← h4]
           exact min_le_right _ _)
        | cases hv
  · intro hle
    split_ifs with h1 h2
    all_goals
      first
        | rfl
        | exact absurd (lt_of_lt_of_le h1.1 hle) (lt_irrefl 0)
        | exact absurd (lt_of_lt_of_le h2.1 hle) (lt_irrefl 0)
  · intro p v hv
    split_ifs at hv with h1 h2
    all_goals
      first
        | (injection hv with h3 h4
           rw [← h4]
           exact min_le_right _ _)
        | cases hv
  · intro oid v hv
    split_ifs at hv with h1 h2
    all_goals
      first
        | (injection hv with h3 h4
           rw [← h4]
           exact min_le_right _ _)
        | cases hv
  · intro hle
    split_ifs with h1 h2
    all_goals
      first
        | rfl
        | exact absurd (lt_of_lt_of_le h1.1 hle) (lt_irrefl 0)
        | exact absurd (lt_of_lt_of_le h2.1 hle) (lt_irrefl 0)

/-- Claim C6 witness: the spec example - position limit 100, position 95,
sizer output 20 - caps the bid insert at volume 5; and with the short
limit exhausted (position -100) the ask side is maintained untouched. -/
theorem claim_C6_volume_caps_witness :
    (5 : ℤ) ≤ 100 - 95 ∧
    (update_quotes [] 10 1 20 20 100 (1/10) (-100) true none true none
      true true).askAction = QuoteAction.maintain := by
  constructor
  · exact (claim_C6_volume_caps [] 10 1 20 20 100 (1/10) 95 true none true none
      true true).1 (round_down_to_tick (10 - 1) (1/10)) 5 (by rfl)
  · exact (claim_C6_volume_caps [] 10 1 20 20 100 (1/10) (-100) true none true
      none true true).2.2.2.2.2 (by decide)

lemma oo_loop2_step_bid_flag (new_bid_price new_ask_price : ℚ)
    (optimal_ask_volume optimal_bid_volume : ℤ) (s : Flags) (o : OOrder)
    (h : ¬ o.side = "bid") :
    (oo_loop2_step new_bid_price new_ask_price optimal_ask_volume
      optimal_bid_volume s o).update_bid_price = s.update_bid_price := by
  simp only [oo_loop2_step, if_neg h]
  split_ifs <;> rfl

lemma oo_loop2_step_ask_flag (new_bid_price new_ask_price : ℚ)
    (optimal_ask_volume optimal_bid_volume : ℤ) (s : Flags) (o : OOrder)
    (h : ¬ o.side = "ask") :
    (oo_loop2_step new_bid_price new_ask_price optimal_ask_volume
      optimal_bid_volume s o).update_ask_price = s.update_ask_price := by
  simp only [oo_loop2_step, if_neg h]
  split_ifs <;> rfl

lemma oo_loop2_bid_false (new_bid_price new_ask_price : ℚ)
    (optimal_ask_volume optimal_bid_volume : ℤ) :
    ∀ (os : List OOrder) (s : Flags),
      (os.foldl (oo_loop2_step new_bid_price new_ask_price optimal_ask_volume
        optimal_bid_volume) s).update_bid_price = false →
      s.update_bid_price = false ∨ ∃ o ∈ os, o.side = "bid" := by
  intro os
  induction os with
  | nil => exact fun s h => Or.inl h
  | cons o rest ih =>
    intro s h
    rcases ih _ h with h1 | h1
    · by_cases hside : o.side = "bid"
      · exact Or.inr ⟨o, List.mem_cons_self o rest, hside⟩
      · rw [oo_loop2_step_bid_flag _ _ _ _ s o hside] at h1
        exact Or.inl h1
    · obtain ⟨o', ho', hs'⟩ := h1
      exact Or.inr ⟨o', List.mem_cons_of_mem o ho', hs'⟩

lemma oo_loop2_ask_false (new_bid_price new_ask_price : ℚ)
    (optimal_ask_volume optimal_bid_volume : ℤ) :
    ∀ (os : List OOrder) (s : Flags),
      (os.foldl (oo_loop2_step new_bid_price new_ask_price optimal_ask_volume
        optimal_bid_volume) s).update_ask_price = false →
      s.update_ask_price = false ∨ ∃ o ∈ os, o.side = "ask" := by
  intro os
  induction os with
  | nil => exact fun s h => Or.inl h
  | cons o rest ih =>
    intro s h
    rcases ih _ h with h1 | h1
    · by_cases hside : o.side = "ask"
      · exact Or.inr ⟨o, List.mem_cons_self o rest, hside⟩
      · rw [oo_loop2_step_ask_flag _ _ _ _ s o hside] at h1
        exact Or.inl h1
    · obtain ⟨o', ho', hs'⟩ := h1
      exact Or.inr ⟨o', List.mem_cons_of_mem o ho', hs'⟩

lemma oo_loop1_snd_isSome :
    ∀ (os : List OOrder) (st : Option ℚ × Option ℚ),
      ((∃ o ∈ os, ¬ o.side = "ask") ∨ st.2.isSome = true) →
      (os.foldl oo_loop1_step st).2.isSome = true := by
  intro os
  induction os with
  | nil =>
    intro st h
    rcases h with ⟨o, ho, -⟩ | h
    · exact absurd ho (List.not_mem_nil o)
    · exact h
  | cons o rest ih =>
    intro st h
    apply ih
    rcases h with ⟨o', ho', hside⟩ | hsome
    · rcases List.mem_cons.mp ho' with rfl | hmem
      · right
        simp [oo_loop1_step, if_neg hside]
      · exact Or.inl ⟨o', hmem, hside⟩
    · right
      unfold oo_loop1_step
      split_ifs
      · exact hsome
      · simp

lemma oo_loop1_fst_isSome :
    ∀ (os : List OOrder) (st : Option ℚ × Option ℚ),
      ((∃ o ∈ os, o.side = "ask") ∨ st.1.isSome = true) →
      (os.foldl oo_loop1_step st).1.isSome = true := by
  intro os
  induction os with
  | nil =>
    intro st h
    rcases h with ⟨o, ho, -⟩ | h
    · exact absurd ho (List.not_mem_nil o)
    · exact h
  | cons o rest ih =>
    intro st h
    apply ih
    rcases h with ⟨o', ho', hside⟩ | hsome
    · rcases List.mem_cons.mp ho' with rfl | hmem
      · right
        simp [oo_loop1_step, if_pos hside]
      · exact Or.inl ⟨o', hmem, hside⟩
    · right
      unfold oo_loop1_step
      split_ifs
      · simp
      · exact hsome

/-- operational_optimazation never actually raises the NameError its
self-trade guard risks: a side flag can only have been set to false by a
resting order on that side, and that same order bound the existing price
the guard reads.  The returned volumes are the inventory-adjusted ones. -/
lemma operational_optimazation_ok (instrument_id : String)
    (outstanding_orders : List OOrder) (suggested_volume : ℤ)
    (new_bid_price new_ask_price : ℚ) (positions : String → ℤ) :
    ∃ r, operational_optimazation instrument_id outstanding_orders
        suggested_volume new_bid_price new_ask_price positions = .ok r ∧
      r.optimal_ask_volume = (if 0 < positions instrument_id then
        suggested_volume + positions instrument_id else suggested_volume) ∧
      r.optimal_bid_volume = (if positions instrument_id < 0 then
        suggested_volume + |positions instrument_id| else suggested_volume) := by
  unfold operational_optimazation
  dsimp only
  by_cases hc1 : (oo_loop2 new_bid_price new_ask_price
      (if 0 < positions instrument_id then suggested_volume + positions instrument_id
        else suggested_volume)
      (if positions instrument_id < 0 then suggested_volume + |positions instrument_id|
        else suggested_volume) outstanding_orders).update_ask_price = true ∧
      (oo_loop2 new_bid_price new_ask_price
      (if 0 < positions instrument_id then suggested_volume + positions instrument_id
        else suggested_volume)
      (if positions instrument_id < 0 then suggested_volume + |positions instrument_id|
        else suggested_volume) outstanding_orders).update_bid_price = false
  · rw [if_pos hc1]
    have hbid : ∃ o ∈ outstanding_orders, o.side = "bid" := by
      rcases oo_loop2_bid_false _ _ _ _ outstanding_orders flags0 hc1.2 with h | h
      · exact absurd h (by simp [flags0])
      · exact h
    have hsnd : (oo_loop1 outstanding_orders).2.isSome = true := by
      obtain ⟨o, ho, hs⟩ := hbid
      exact oo_loop1_snd_isSome outstanding_orders (none, none)
        (Or.inl ⟨o, ho, by simp [hs]⟩)
    obtain ⟨p, hp⟩ := Option.isSome_iff_exists.mp hsnd
    rw [hp]
    split_ifs <;> exact ⟨_, rfl, rfl, rfl⟩
  · rw [if_neg hc1]
    by_cases hc2 : (oo_loop2 new_bid_price new_ask_price
        (if 0 < positions instrument_id then suggested_volume + positions instrument_id
          else suggested_volume)
        (if positions instrument_id < 0 then suggested_volume + |positions instrument_id|
          else suggested_volume) outstanding_orders).update_bid_price = true ∧
        (oo_loop2 new_bid_price new_ask_price
        (if 0 < positions instrument_id then suggested_volume + positions instrument_id
          else suggested_volume)
        (if positions instrument_id < 0 then suggested_volume + |positions instrument_id|
          else suggested_volume) outstanding_orders).update_ask_price = false
    · rw [if_pos hc2]
      have hask : ∃ o ∈ outstanding_orders, o.side = "ask" := by
        rcases oo_loop2_ask_false _ _ _ _ outstanding_orders flags0 hc2.2 with h | h
        · exact absurd h (by simp [flags0])
        · exact h
      have hfst : (oo_loop1 outstanding_orders).1.isSome = true :=
        oo_loop1_fst_isSome outstanding_orders (none, none) (Or.inl hask)
      obtain ⟨p, hp⟩ := Option.isSome_iff_exists.mp hfst
      rw [hp]
      split_ifs <;> exact ⟨_, rfl, rfl, rfl⟩
    · rw [if_neg hc2]
      exact ⟨_, rfl, rfl, rfl⟩

/-- Claim C9.  The pre-cap volumes operational_optimazation hands to
update_quotes are the sizer suggestion plus the inventory add-on: positive
inventory p adds p to the ask volume only, negative inventory adds abs(p)
to the bid volume only, zero inventory leaves both at the suggestion. -/
theorem claim_C9_inventory_addon (instrument_id : String)
    (outstanding_orders : List OOrder) (suggested_volume : ℤ)
    (new_bid_price new_ask_price : ℚ) (positions : String → ℤ) :
    ∃ r, operational_optimazation instrument_id outstanding_orders
        suggested_volume new_bid_price new_ask_price positions = .ok r ∧
      (0 < positions instrument_id →
        r.optimal_ask_volume = suggested_volume + positions instrument_id ∧
        r.optimal_bid_volume = suggested_volume) ∧
      (positions instrument_id < 0 →
        r.optimal_bid_volume = suggested_volume + |positions instrument_id| ∧
        r.optimal_ask_volume = suggested_volume) ∧
      (positions instrument_id = 0 →
        r.optimal_ask_volume = suggested_volume ∧
        r.optimal_bid_volume = suggested_volume) := by
  obtain ⟨r, hr, hav, hbv⟩ := operational_optimazation_ok instrument_id
    outstanding_orders suggested_volume new_bid_price new_ask_price positions
  refine ⟨r, hr, ?_, ?_, ?_⟩
  · intro hp
    constructor
    · rw [hav, if_pos hp]
    · rw [hbv, if_neg (by omega)]
  · intro hp
    constructor
    · rw [hbv, if_pos hp]
    · rw [hav, if_neg (by omega)]
  · intro hp
    constructor
    · rw [hav, if_neg (by omega)]
    · rw [hbv, if_neg (by omega)]

/-- Claim C9 witness: with inventory 7 and suggestion 20 the pre-cap ask
volume is 27 and the bid volume stays 20. -/
theorem claim_C9_inventory_addon_witness :
    ∃ r, operational_optimazation "NVDA" [] 20 9 11 (fun _ => 7) = .ok r ∧
      r.optimal_ask_volume = 20 + 7 ∧ r.optimal_bid_volume = 20 := by
  obtain ⟨r, hr, h1, h2, h3⟩ :=
    claim_C9_inventory_addon "NVDA" [] 20 9 11 (fun _ => 7)
  obtain ⟨ha, hb⟩ := h1 (by norm_num)
  exact ⟨r, hr, ha, hb⟩

lemma update_quotes_no_ask_insert (orders : List OOrder)
    (theoretical_price credit : ℚ)
    (optimal_ask_volume optimal_bid_volume position_limit : ℤ)
    (tick_size : ℚ) (position : ℤ) (ask_order_id : Option ℕ)
    (update_bid_price : Bool) (bid_order_id : Option ℕ)
    (update_ask_volume update_bid_volume : Bool) :
    ∀ p v, ¬ (update_quotes orders theoretical_price credit optimal_ask_volume
        optimal_bid_volume position_limit tick_size position false
        ask_order_id update_bid_price bid_order_id update_ask_volume
        update_bid_volume).askAction = QuoteAction.insert p v := by
  intro p v h
  unfold update_quotes at h
  dsimp only at h
  rw [if_neg (fun hc => Bool.noConfusion hc.2)] at h
  split_ifs at h <;> cases h

lemma update_quotes_no_bid_insert (orders : List OOrder)
    (theoretical_price credit : ℚ)
    (optimal_ask_volume optimal_bid_volume position_limit : ℤ)
    (tick_size : ℚ) (position : ℤ) (update_ask_price : Bool)
    (ask_order_id : Option ℕ) (bid_order_id : Option ℕ)
    (update_ask_volume update_bid_volume : Bool) :
    ∀ p v, ¬ (update_quotes orders theoretical_price credit optimal_ask_volume
        optimal_bid_volume position_limit tick_size position update_ask_price
        ask_order_id false bid_order_id update_ask_volume
        update_bid_volume).bidAction = QuoteAction.insert p v := by
  intro p v h
  unfold update_quotes at h
  dsimp only at h
  rw [if_neg (fun hc => Bool.noConfusion hc.2)] at h
  split_ifs at h <;> cases h

/-- Claim C7.  Self-trade guard, both directions, for the one resting
order per side convention.  Ask direction: a resting bid at price q whose
price is not changing (new bid price q), a desired new ask price equal to
q, and any resting ask at a different price: operational_optimazation
forces update_ask_price to false, and update_quotes consequently inserts
no ask order.  Bid direction symmetrically. -/
theorem claim_C7_self_trade_guard :
    (∀ (q ap : ℚ) (bid_oid ask_oid : ℕ) (bvol avol : ℤ) (os : List OOrder)
        (instrument_id : String) (suggested_volume : ℤ)
        (positions : String → ℤ) (orders : List OOrder)
        (theoretical_price credit : ℚ) (position_limit : ℤ)
        (tick_size : ℚ) (position : ℤ),
      (os = [⟨bid_oid, "bid", q, bvol⟩] ∨
        os = [⟨bid_oid, "bid", q, bvol⟩, ⟨ask_oid, "ask", ap, avol⟩] ∨
        os = [⟨ask_oid, "ask", ap, avol⟩, ⟨bid_oid, "bid", q, bvol⟩]) →
      ¬ ap = q →
      ∃ r, operational_optimazation instrument_id os suggested_volume q q
          positions = .ok r ∧
        r.update_ask_price = false ∧
        ∀ p v, ¬ (update_quotes orders theoretical_price credit
            r.optimal_ask_volume r.optimal_bid_volume position_limit tick_size
            position r.update_ask_price r.ask_order_id r.update_bid_price
            r.bid_order_id r.update_ask_volume
            r.update_bid_volume).askAction = QuoteAction.insert p v) ∧
    (∀ (q bp : ℚ) (bid_oid ask_oid : ℕ) (bvol avol : ℤ) (os : List OOrder)
        (instrument_id : String) (suggested_volume : ℤ)
        (positions : String → ℤ) (orders : List OOrder)
        (theoretical_price credit : ℚ) (position_limit : ℤ)
        (tick_size : ℚ) (position : ℤ),
      (os = [⟨ask_oid, "ask", q, avol⟩] ∨
        os = [⟨ask_oid, "ask", q, avol⟩, ⟨bid_oid, "bid", bp, bvol⟩] ∨
        os = [⟨bid_oid, "bid", bp, bvol⟩, ⟨ask_oid, "ask", q, avol⟩]) →
      ¬ bp = q →
      ∃ r, operational_optimazation instrument_id os suggested_volume q q
          positions = .ok r ∧
        r.update_bid_price = false ∧
        ∀ p v, ¬ (update_quotes orders theoretical_price credit
            r.optimal_ask_volume r.optimal_bid_volume position_limit tick_size
            position r.update_ask_price r.ask_order_id r.update_bid_price
            r.bid_order_id r.update_ask_volume
            r.update_bid_volume).bidAction = QuoteAction.insert p v) := by
  constructor
  · intro q ap bid_oid ask_oid bvol avol os instrument_id suggested_volume
      positions orders theoretical_price credit position_limit tick_size
      position hshape hap
    rcases hshape with rfl | rfl | rfl <;>
      simp [operational_optimazation, oo_loop1, oo_loop2, List.foldl,
        oo_loop1_step, oo_loop2_step, flags0, hap] <;>
      exact fun p v => update_quotes_no_ask_insert _ _ _ _ _ _ _ _ _ _ _ _ _ p v
  · intro q bp bid_oid ask_oid bvol avol os instrument_id suggested_volume
      positions orders theoretical_price credit position_limit tick_size
      position hshape hbp
    rcases hshape with rfl | rfl | rfl <;>
      simp [operational_optimazation, oo_loop1, oo_loop2, List.foldl,
        oo_loop1_step, oo_loop2_step, flags0, hbp] <;>
      exact fun p v => update_quotes_no_bid_insert _ _ _ _ _ _ _ _ _ _ _ _ _ p v

/-- Claim C7 witness: the spec scenario - resting bid at 100.0, bid
unchanged, desired new ask exactly 100.0 - suppresses the ask repricing,
and the mirrored scenario suppresses the bid repricing. -/
theorem claim_C7_self_trade_guard_witness :
    (∃ r, operational_optimazation "OPT1" [⟨1, "bid", 100, 10⟩] 20 100 100
        (fun _ => 0) = .ok r ∧
      r.update_ask_price = false ∧
      ∀ p v, ¬ (update_quotes [] 12 1 r.optimal_ask_volume
          r.optimal_bid_volume 100 (1/10) 0 r.update_ask_price r.ask_order_id
          r.update_bid_price r.bid_order_id r.update_ask_volume
          r.update_bid_volume).askAction = QuoteAction.insert p v) ∧
    (∃ r, operational_optimazation "OPT1" [⟨2, "ask", 100, 10⟩] 20 100 100
        (fun _ => 0) = .ok r ∧
      r.update_bid_price = false ∧
      ∀ p v, ¬ (update_quotes [] 12 1 r.optimal_ask_volume
          r.optimal_bid_volume 100 (1/10) 0 r.update_ask_price r.ask_order_id
          r.update_bid_price r.bid_order_id r.update_ask_volume
          r.update_bid_volume).bidAction = QuoteAction.insert p v) := by
  constructor
  · exact claim_C7_self_trade_guard.1 100 105 1 2 10 10 _ "OPT1" 20
      (fun _ => 0) [] 12 1 100 (1/10) 0 (Or.inl rfl) (by norm_num)
  · exact claim_C7_self_trade_guard.2 100 105 1 2 10 10 _ "OPT1" 20
      (fun _ => 0) [] 12 1 100 (1/10) 0 (Or.inl rfl) (by norm_num)

lemma options_delta_loop_snd (cd pd : PriceFn) (fetch : ℕ → String → ℤ)
    (stock_value : ℚ) :
    ∀ (options : List OptionInstr) (i : ℕ) (acc : ℚ)
      (pos0 : Option (String → ℤ)) (agg : ℚ) (posv : Option (String → ℤ)),
      options ≠ [] →
      options_delta_loop cd pd fetch stock_value options i acc pos0 =
        .ok (agg, posv) →
      posv = some (fetch (i + options.length - 1)) := by
  intro options
  induction options with
  | nil => exact fun i acc pos0 agg posv hne _ => absurd rfl hne
  | cons o rest ih =>
    intro i acc pos0 agg posv hne h
    unfold options_delta_loop at h
    cases hcd : calculate_option_delta cd pd o.timeToExpiry o.strike
        o.option_kind stock_value (3/100) 3 with
    | error e =>
      rw [hcd] at h
      cases h
    | ok d =>
      rw [hcd] at h
      by_cases hr : rest = []
      · subst hr
        unfold options_delta_loop at h
        injection h with h'
        have h2 := congrArg Prod.snd h'
        simp only at h2
        simp [← h2]
      · have := ih (i + 1) (acc + d * (fetch i o.id : ℚ)) (some (fetch i))
          agg posv hr h
        rw [this]
        have harith : i + 1 + rest.length - 1 = i + (o :: rest).length - 1 := by
          simp [List.length_cons]
        rw [harith]

/-- Claim C10.  The NVDA branch of hedge_delta_position binds the
positions snapshot only inside the loop over options, so with an empty
options mapping the later futures/stock/dual reads raise a NameError; and
whenever the options mapping is non-empty, the snapshot those reads use is
exactly the one fetched during the last option iteration (index
length - 1). -/
theorem claim_C10_positions_snapshot (cd pd : PriceFn)
    (fetch : ℕ → String → ℤ) (future_ids : List String) (stock_value : ℚ) :
    hedge_delta_aggregate_nvda cd pd fetch [] future_ids stock_value =
      .error .nameError ∧
    ∀ options : List OptionInstr, options ≠ [] →
      hedge_delta_aggregate_nvda cd pd fetch options future_ids stock_value =
        (options_delta_loop cd pd fetch stock_value options 0 0 none).map
          (fun pr =>
            (future_ids.foldl
              (fun a f => a + (fetch (options.length - 1) f : ℚ)) pr.1) +
            (fetch (options.length - 1) "NVDA" : ℚ) +
            (fetch (options.length - 1) "NVDA_DUAL" : ℚ)) := by
  constructor
  · rfl
  · intro options hne
    unfold hedge_delta_aggregate_nvda
    cases hl : options_delta_loop cd pd fetch stock_value options 0 0 none with
    | error e => simp [hl, Bind.bind, Except.bind, Except.map]
    | ok pr =>
      obtain ⟨agg, posv⟩ := pr
      have hsnd := options_delta_loop_snd cd pd fetch stock_value options 0 0
        none agg posv hne hl
      simp only [Nat.zero_add] at hsnd
      simp [hl, hsnd, Bind.bind, Except.bind, Except.map]

/-- Option instrument used in the claim C10 witness. -/
def opt_ex : OptionInstr := ⟨"OPT1", 1, 100, .call⟩

/-- Position snapshots that change on every fetch, so the witness result
pins down which fetch the trailing reads used. -/
def fetch_pos_ex : ℕ → String → ℤ :=
  fun i s => if s = "NVDA" then (i : ℤ) + 3 else 2

/-- Claim C10 witness: with a single option the futures/stock/dual reads
use the snapshot of fetch index 0, the last (and only) option iteration. -/
theorem claim_C10_positions_snapshot_witness :
    hedge_delta_aggregate_nvda pf0 pf0 fetch_pos_ex [opt_ex] ["FUT1"] 50 =
      (options_delta_loop pf0 pf0 fetch_pos_ex 50 [opt_ex] 0 0 none).map
        (fun pr =>
          (["FUT1"].foldl
            (fun a f => a + (fetch_pos_ex ([opt_ex].length - 1) f : ℚ)) pr.1) +
          (fetch_pos_ex ([opt_ex].length - 1) "NVDA" : ℚ) +
          (fetch_pos_ex ([opt_ex].length - 1) "NVDA_DUAL" : ℚ)) :=
  (claim_C10_positions_snapshot pf0 pf0 fetch_pos_ex ["FUT1"] 50).2 [opt_ex]
    (by simp)

end Algo
